import Mathlib

/-!
Verification of `src/system/lib/minimalloc.cpp` (a minimalistic malloc/free
for a 32-bit system, on top of sbrk).

The C code is shallowly embedded as executable Lean functions over an
explicit allocator state.  Modelling conventions:

* `size_t` is 32 bits; arithmetic that can wrap is taken modulo `2^32`
  (`add32`, `sub32`); values that cannot wrap stay plain `Nat`.
* The heap is a finite map from region start addresses to region headers
  (`mem : List (Nat × RegionH)`).  Header fields `prev`/`next` hold the
  physical-neighbor region addresses (`NULL` is `none`).  The `FreeInfo`
  overlay that the source stores in the first 16 payload bytes of a free
  region is kept as the two extra fields `fprev`/`fnext` of the header
  record; free-list pointers are stored as region addresses (the source
  stores `FreeInfo*`, a fixed +16 offset away, and converts back with
  `fromFreeInfo`).  In the executions used below no header or free-info
  write overlaps another tracked header, so the map view coincides with
  the flat-memory view.
* `sbrk` is modelled by a frontier `brk` and a limit `brkLimit`: a request
  of `n` bytes succeeds and returns the old frontier iff the grown
  frontier stays within the limit; otherwise it fails (`(void*)-1`).
* Payload bytes are a byte map `data`; `memset`/`memcpy` act on it.
* `assert(...)` in the source is a no-op at run time (release build); each
  asserted condition that a claim is about is modelled explicitly as a
  `Bool`-valued definition beside the operation.
* In the source, `freeLists` is an array of `MAX_FREELIST_INDEX = 32`
  heads, but `getFreeListIndex` can produce indices `≥ 32` (see the
  theorem about it below), making those accesses run off the array.  The
  model gives the table a slot for every index so such executions stay
  defined; no theorem below depends on the contents of a slot `≥ 32`.
* `useFreeInfo` in the source reads a variable `size` that is declared
  nowhere in scope (the call `useRegion(region, size)` at line 240); the
  model gives `useFreeInfo` an explicit `size` parameter, which is what
  the spec asks for and the only way to give the line a meaning.
-/

/-- `2^32`, the modulus of `size_t` arithmetic on the assumed 32-bit system. -/
def U32 : Nat := 4294967296

/-- `size_t` addition (wraps modulo `2^32`). -/
def add32 (a b : Nat) : Nat := (a + b) % U32

/-- `size_t` subtraction (wraps modulo `2^32`): `16 - 20` is `2^32 - 4`. -/
def sub32 (a b : Nat) : Nat := (a % U32 + (U32 - b % U32)) % U32

/-- `__builtin_popcount` of the low 32 bits of `x`. -/
def popcount32 (x : Nat) : Nat :=
  ((List.range 32).map (fun i => x / 2 ^ i % 2)).sum

/-- `isPowerOf2` from the source: `__builtin_popcount(x) == 1`. -/
def isPowerOf2 (x : Nat) : Bool := popcount32 x == 1

/-- The bit length of the low 32 bits of `x`: one past the highest set
bit position. -/
def bitlen32 (x : Nat) : Nat :=
  (List.range 32).foldl (fun acc i => if x / 2 ^ i % 2 = 1 then i + 1 else acc) 0

/-- `__builtin_clz` on a 32-bit value (`x ≠ 0`): the number of leading
zero bits, `32` minus the bit length. -/
def clz32 (x : Nat) : Nat := 32 - bitlen32 x

/-- `lowerBoundByPowerOf2` from the source: `1`, `x` itself when it is a
power of two, else `1 << (31 - clz(x))`. -/
def lowerBoundByPowerOf2 (x : Nat) : Nat :=
  if x = 0 then 1
  else if isPowerOf2 x then x
  else 1 <<< (31 - clz32 x)

-- Constants from the source.

/-- `ALIGNMENT`: all allocations are aligned to this value. -/
def ALIGNMENT : Nat := 16

/-- `MIN_ALLOC`: the minimum bin size. -/
def MIN_ALLOC : Nat := ALIGNMENT

/-- `METADATA_SIZE`: the size of the metadata in each region. -/
def METADATA_SIZE : Nat := MIN_ALLOC

/-- `MIN_REGION_SIZE`: how big a minimal region is. -/
def MIN_REGION_SIZE : Nat := METADATA_SIZE + MIN_ALLOC

/-- `MIN_FREELIST_INDEX` (16 == MIN_ALLOC, so 4). -/
def MIN_FREELIST_INDEX : Nat := 4

/-- `MAX_FREELIST_INDEX` (uint32_t, so 32). -/
def MAX_FREELIST_INDEX : Nat := 32

/-- `SPECULATIVE_FREELIST_TRIES`. -/
def SPECULATIVE_FREELIST_TRIES : Nat := 3

/-- `alignUp`: `(ptr + ALIGNMENT - 1) & -ALIGNMENT` in 32-bit arithmetic. -/
def alignUp (p : Nat) : Nat :=
  (p + ALIGNMENT - 1) % U32 / ALIGNMENT * ALIGNMENT

/-- A `Region` header: `totalSize`, `usedPayload`, physical neighbors
`prev`/`next`, plus the `FreeInfo` overlay (`fprev`/`fnext`, the
doubly-linked free-list links stored in the payload area while the
region is free). -/
structure RegionH where
  totalSize : Nat
  usedPayload : Nat
  prev : Option Nat
  next : Option Nat
  fprev : Option Nat
  fnext : Option Nat
deriving DecidableEq

/-- The all-zero header: what uninitialized model memory reads as. -/
def RegionH.empty : RegionH :=
  { totalSize := 0, usedPayload := 0, prev := none, next := none,
    fprev := none, fnext := none }

instance : Inhabited RegionH := ⟨RegionH.empty⟩

/-- Association-list lookup with a default for absent keys. -/
def alookup {α : Type} (d : α) : List (Nat × α) → Nat → α
  | [], _ => d
  | (b, v) :: rest, a => if a = b then v else alookup d rest a

/-- Association-list update (inserting with the default when absent). -/
def aupdate {α : Type} (d : α) : List (Nat × α) → Nat → (α → α) → List (Nat × α)
  | [], a, f => [(a, f d)]
  | (b, v) :: rest, a, f =>
      if a = b then (b, f v) :: rest else (b, v) :: aupdate d rest a f

/-- Read the region header at address `a`. -/
def lookupR (mem : List (Nat × RegionH)) (a : Nat) : RegionH :=
  alookup RegionH.empty mem a

/-- Rewrite the region header at address `a`. -/
def updateR (mem : List (Nat × RegionH)) (a : Nat) (f : RegionH → RegionH) :
    List (Nat × RegionH) :=
  aupdate RegionH.empty mem a f

/-- The allocator's global state: the region headers, the free-list table
(`freeLists` heads, by index), `lastRegion`, the sbrk frontier and its
failure limit, and the payload byte map. -/
structure AllocState where
  mem : List (Nat × RegionH)
  heads : List (Nat × Option Nat)
  lastRegion : Option Nat
  brk : Nat
  brkLimit : Nat
  data : List (Nat × Nat)
deriving DecidableEq

/-- `freeLists[i]`, as the address of the head region (none = NULL). -/
def getHead (s : AllocState) (i : Nat) : Option Nat :=
  alookup none s.heads i

/-- `freeLists[i] = v`. -/
def setHead (s : AllocState) (i : Nat) (v : Option Nat) : AllocState :=
  { s with heads := aupdate none s.heads i (fun _ => v) }

/-- `getMaximumPayloadSize`: `totalSize - METADATA_SIZE`. -/
def getMaximumPayloadSize (r : RegionH) : Nat :=
  sub32 r.totalSize METADATA_SIZE

/-- `getFreeListIndex` from the source: clamps to `MIN_ALLOC` and returns
`lowerBoundByPowerOf2(size)` — the power of two itself, not its
exponent. -/
def getFreeListIndex (size : Nat) : Nat :=
  lowerBoundByPowerOf2 (if size < MIN_ALLOC then MIN_ALLOC else size)

/-- The conjunction of the `assert`s inside `getFreeListIndex`:
`size > 0`, and `MIN_FREELIST_INDEX <= ret && ret < MAX_FREELIST_INDEX`. -/
def getFreeListIndexAssertOk (size : Nat) : Bool :=
  decide (0 < size) &&
  decide (MIN_FREELIST_INDEX ≤ getFreeListIndex size) &&
  decide (getFreeListIndex size < MAX_FREELIST_INDEX)

/-- `getMinSizeForFreeListIndex`: `1 << index`. -/
def getMinSizeForFreeListIndex (index : Nat) : Nat := 1 <<< index

/-- `removeFromFreeList`.  The source's two `assert`s here
(`region->usedPayload` nonzero, then `getFreeInfo`'s demand that it be
zero) are contradictory; they are modelled separately below. -/
def removeFromFreeList (s : AllocState) (a : Nat) : AllocState :=
  let r := lookupR s.mem a
  let index := getFreeListIndex (getMaximumPayloadSize r)
  let s1 := if getHead s index = some a then setHead s index r.fnext else s
  let s2 := match r.fprev with
    | some p => { s1 with mem := updateR s1.mem p (fun q => { q with fnext := r.fnext }) }
    | none => s1
  match r.fnext with
  | some n2 => { s2 with mem := updateR s2.mem n2 (fun q => { q with fprev := r.fprev }) }
  | none => s2

/-- `addToFreeList`: push the region at the head of its class's list.
(The source does not set the old head's back-link.) -/
def addToFreeList (s : AllocState) (a : Nat) : AllocState :=
  let r := lookupR s.mem a
  let index := getFreeListIndex (getMaximumPayloadSize r)
  let last := getHead s index
  let s1 := setHead s index (some a)
  { s1 with mem := updateR s1.mem a (fun q => { q with fprev := none, fnext := last }) }

/-- The `assert(region->usedPayload)` at the top of `addToFreeList`
(and of `removeFromFreeList`): the region's used payload is nonzero. -/
def usedPayloadNonzeroAssert (s : AllocState) (a : Nat) : Bool :=
  (lookupR s.mem a).usedPayload != 0

/-- The `assert(!region->usedPayload)` inside `getFreeInfo`, which both
`addToFreeList` and `removeFromFreeList` call right after their own
assert: the region's used payload is zero. -/
def getFreeInfoAssert (s : AllocState) (a : Nat) : Bool :=
  (lookupR s.mem a).usedPayload == 0

/-- `possiblySplitRemainder(region, size)`: if the unused remainder is at
least `MIN_REGION_SIZE + ALIGNMENT`, carve a region at
`alignUp(payload + size)` — initialized by the source with
`initRegion(split, totalSplitSize, size)`, i.e. with `usedPayload = size`
and `totalSize` equal to the distance from the original region's start —
link it after the original region and file it in the free-list table.
`extra` is `size_t` subtraction, so it wraps when `size` exceeds the
capacity (the source only asserts `payloadSize >= size`). -/
def possiblySplitRemainder (s : AllocState) (a : Nat) (size : Nat) : AllocState :=
  let payloadSize := getMaximumPayloadSize (lookupR s.mem a)
  let extra := sub32 payloadSize size
  if MIN_REGION_SIZE + ALIGNMENT ≤ extra then
    let split := alignUp (add32 (add32 a METADATA_SIZE) size)
    let totalSplitSize := sub32 split a
    let s1 := { s with mem := updateR s.mem split (fun _ =>
      { RegionH.empty with totalSize := totalSplitSize, usedPayload := size }) }
    let s2 := { s1 with mem := updateR s1.mem split (fun q =>
      { q with prev := some a, next := (lookupR s1.mem a).next }) }
    let s3 := { s2 with mem := updateR s2.mem a (fun q => { q with next := some split }) }
    addToFreeList s3 split
  else s

/-- `useRegion(region, size)`: mark `size` bytes used, then maybe split. -/
def useRegion (s : AllocState) (a : Nat) (size : Nat) : AllocState :=
  let s1 := { s with mem := updateR s.mem a (fun q => { q with usedPayload := size }) }
  possiblySplitRemainder s1 a size

/-- `useFreeInfo`: unlink the region and mark it used.  In the source the
call is `useRegion(region, size)` with no `size` in scope (the function
takes only the `FreeInfo*`); the parameter here supplies the requested
size that the source fails to thread through. -/
def useFreeInfo (s : AllocState) (a : Nat) (size : Nat) : Nat × AllocState :=
  let s1 := removeFromFreeList s a
  (a, useRegion s1 a size)

/-- The speculative walk of `tryFromFreeList`: up to
`SPECULATIVE_FREELIST_TRIES` nodes of the one-lower list, returning the
first with capacity at least `size` (fuel is the tries budget). -/
def speculativeFind (s : AllocState) (size : Nat) : Nat → Option Nat → Option Nat
  | 0, _ => none
  | _, none => none
  | fuel + 1, some f =>
      if size ≤ getMaximumPayloadSize (lookupR s.mem f) then some f
      else speculativeFind s size fuel (lookupR s.mem f).fnext

/-- The main scan of `tryFromFreeList`: walk the table heads upward from
`index` while `index < MAX_FREELIST_INDEX`, returning the first nonempty
head (fuel bounds the loop; `MAX_FREELIST_INDEX` iterations always
suffice). -/
def scanLists (s : AllocState) : Nat → Nat → Option Nat
  | 0, _ => none
  | fuel + 1, index =>
      if index < MAX_FREELIST_INDEX then
        match getHead s index with
        | some f => some f
        | none => scanLists s fuel (index + 1)
      else none

/-- `tryFromFreeList(size)`: the speculative probe of the one-lower class
(only when `size` is not itself a class boundary), then the upward scan;
a hit is consumed with `useFreeInfo`.  Returns the chosen region's
address and the new state, or `none` (and no state change) on a miss. -/
def tryFromFreeList (s : AllocState) (size : Nat) : Option (Nat × AllocState) :=
  let index := getFreeListIndex size
  let spec :=
    if MIN_FREELIST_INDEX < index ∧ size < getMinSizeForFreeListIndex index then
      speculativeFind s size SPECULATIVE_FREELIST_TRIES (getHead s (index - 1))
    else none
  match spec with
  | some f => some (useFreeInfo s f size)
  | none =>
    match scanLists s MAX_FREELIST_INDEX index with
    | some f => some (useFreeInfo s f size)
    | none => none

/-- The tail of `newAllocation` after sbrk succeeded: `initRegion`,
`useRegion`, link to `lastRegion` when physically adjacent
(`region == getAfter(lastRegion)`), and advance `lastRegion`. -/
def finishNewAllocation (s : AllocState) (a sbrkSize size : Nat) :
    Option Nat × AllocState :=
  let s1 := { s with mem := updateR s.mem a (fun _ =>
    { RegionH.empty with totalSize := sbrkSize, usedPayload := size }) }
  let s2 := useRegion s1 a size
  let s3 := match s2.lastRegion with
    | some last =>
        if a = add32 last (lookupR s2.mem last).totalSize then
          let t1 := { s2 with mem := updateR s2.mem last (fun q => { q with next := some a }) }
          { t1 with mem := updateR t1.mem a (fun q => { q with prev := some last }) }
        else s2
    | none => s2
  (some a, { s3 with lastRegion := some a })

/-- `newAllocation(size)`: grow by `METADATA_SIZE + alignUp(size)`, fix up
an unaligned sbrk result with a second corrective sbrk, then initialize
and use the fresh region.  Failure of either sbrk yields `none` (the
second failure after the frontier already moved, as in the source). -/
def newAllocation (s : AllocState) (size : Nat) : Option Nat × AllocState :=
  let sbrkSize := add32 METADATA_SIZE (alignUp size)
  if s.brkLimit < s.brk + sbrkSize then (none, s)
  else
    let ptr := s.brk
    let s1 := { s with brk := s.brk + sbrkSize }
    let fixedPtr := alignUp ptr
    if ptr = fixedPtr then finishNewAllocation s1 fixedPtr sbrkSize size
    else
      let extra := sub32 fixedPtr ptr
      if s1.brkLimit < s1.brk + extra then (none, s1)
      else finishNewAllocation { s1 with brk := s1.brk + extra } fixedPtr sbrkSize size

/-- `malloc(size)`: null on zero, else the free list, else fresh memory;
a success returns the payload address, `region + METADATA_SIZE`. -/
def malloc (s : AllocState) (size : Nat) : Option Nat × AllocState :=
  if size = 0 then (none, s)
  else
    match tryFromFreeList s size with
    | some (f, s1) => (some (add32 f METADATA_SIZE), s1)
    | none =>
      match newAllocation s size with
      | (some a, s2) => (some (add32 a METADATA_SIZE), s2)
      | (none, s2) => (none, s2)

/-- Byte write into the payload byte map. -/
def writeByte (s : AllocState) (addr v : Nat) : AllocState :=
  { s with data := aupdate 0 s.data addr (fun _ => v) }

/-- Byte read from the payload byte map (uninitialized reads as 0). -/
def readByte (s : AllocState) (addr : Nat) : Nat :=
  alookup 0 s.data addr

/-- `memset(p, v, n)` on the byte map. -/
def memsetData (s : AllocState) (p v n : Nat) : AllocState :=
  (List.range n).foldl (fun t i => writeByte t (p + i) v) s

/-- `memcpy(dst, src, n)` on the byte map (the two ranges are disjoint at
every use below). -/
def memcpyData (s : AllocState) (dst src n : Nat) : AllocState :=
  (List.range n).foldl (fun t i => writeByte t (dst + i) (readByte s (src + i))) s

/-- The second branch of `mergeIntoExistingFreeRegion`: absorb a free
right neighbor into the region itself (`region->totalSize += ...`,
`region->next = next->next`, re-file the region). -/
def mergeNextBranch (s : AllocState) (a : Nat) (next : Option Nat) :
    Bool × AllocState :=
  match next with
  | some na =>
    if (lookupR s.mem na).usedPayload = 0 then
      let s1 := removeFromFreeList s na
      let s2 := { s1 with mem := updateR s1.mem a (fun q =>
        { q with totalSize := add32 q.totalSize (lookupR s1.mem na).totalSize }) }
      let s3 := { s2 with mem := updateR s2.mem a (fun q =>
        { q with next := (lookupR s2.mem na).next }) }
      (true, addToFreeList s3 a)
    else (false, s)
  | none => (false, s)

/-- `mergeIntoExistingFreeRegion(region)`: absorb the region into a free
left neighbor (then also a free right neighbor), else absorb a free right
neighbor; returns whether a merge happened.  As in the source, the
surviving region's `next` is reassigned but the new right neighbor's
`prev` is never updated. -/
def mergeIntoExistingFreeRegion (s : AllocState) (a : Nat) : Bool × AllocState :=
  let r := lookupR s.mem a
  let next := r.next
  match r.prev with
  | some pa =>
    if (lookupR s.mem pa).usedPayload = 0 then
      let s1 := removeFromFreeList s pa
      let s2 := { s1 with mem := updateR s1.mem pa (fun q =>
        { q with totalSize := add32 q.totalSize (lookupR s1.mem a).totalSize }) }
      let s3 := { s2 with mem := updateR s2.mem pa (fun q =>
        { q with next := (lookupR s2.mem a).next }) }
      let s6 := match next with
        | some na =>
          if (lookupR s3.mem na).usedPayload = 0 then
            let s4 := removeFromFreeList s3 na
            let s5 := { s4 with mem := updateR s4.mem pa (fun q =>
              { q with totalSize := add32 q.totalSize (lookupR s4.mem na).totalSize }) }
            { s5 with mem := updateR s5.mem pa (fun q =>
              { q with next := (lookupR s5.mem na).next }) }
          else s3
        | none => s3
      (true, addToFreeList s6 pa)
    else mergeNextBranch s a next
  | none => mergeNextBranch s a next

/-- `free(ptr)`: no-op on NULL; else recover the region
(`fromPayload`, a fixed `-METADATA_SIZE`), zero `usedPayload`, try to
coalesce, else file the region in the free-list table. -/
def free (s : AllocState) (ptr : Option Nat) : AllocState :=
  match ptr with
  | none => s
  | some p =>
    let a := sub32 p METADATA_SIZE
    let s1 := { s with mem := updateR s.mem a (fun q => { q with usedPayload := 0 }) }
    match mergeIntoExistingFreeRegion s1 a with
    | (true, s2) => s2
    | (false, s2) => addToFreeList s2 a

/-- `calloc(nmemb, size)`: as in the source, it calls `malloc(size)` — not
`malloc(nmemb * size)` — and `memset(ptr, 0, size)`. -/
def calloc (s : AllocState) (nmemb size : Nat) : Option Nat × AllocState :=
  match malloc s size with
  | (none, s1) => (none, s1)
  | (some p, s1) => (some p, memsetData s1 p 0 size)

/-- The guard of realloc's right-neighbor absorption:
`next && !next->usedPayload && size <= getMaximumPayloadSize(region) + next->totalSize`. -/
def growIntoNext (s : AllocState) (a size : Nat) : Bool :=
  match (lookupR s.mem a).next with
  | none => false
  | some na =>
      (lookupR s.mem na).usedPayload == 0 &&
      decide (size ≤ add32 (getMaximumPayloadSize (lookupR s.mem a))
        (lookupR s.mem na).totalSize)

/-- `realloc(ptr, size)`: malloc on NULL; free on zero size; no-op on equal
size; in-place shrink (with a split attempt) or in-place growth within
capacity; absorb a free right neighbor when it suffices; else allocate
fresh, copy `usedPayload` bytes, free the original. -/
def realloc (s : AllocState) (ptr : Option Nat) (size : Nat) :
    Option Nat × AllocState :=
  match ptr with
  | none => malloc s size
  | some p =>
    if size = 0 then (none, free s (some p))
    else
      let a := sub32 p METADATA_SIZE
      let r := lookupR s.mem a
      if size = r.usedPayload then (some p, s)
      else if size < r.usedPayload then
        let s1 := { s with mem := updateR s.mem a (fun q => { q with usedPayload := size }) }
        (some p, possiblySplitRemainder s1 a size)
      else if size ≤ getMaximumPayloadSize r then
        (some p, { s with mem := updateR s.mem a (fun q => { q with usedPayload := size }) })
      else if growIntoNext s a size then
        let na := ((lookupR s.mem a).next).getD 0
        let s1 := { s with mem := updateR s.mem a (fun q =>
          { q with totalSize := add32 q.totalSize (lookupR s.mem na).totalSize }) }
        let s2 := { s1 with mem := updateR s1.mem a (fun q => { q with usedPayload := size }) }
        let s3 := { s2 with mem := updateR s2.mem a (fun q =>
          { q with next := (lookupR s2.mem na).next }) }
        (some p, removeFromFreeList s3 na)
      else
        match malloc s size with
        | (none, s1) => (none, s1)
        | (some np, s1) =>
          let s2 := memcpyData s1 np p (lookupR s1.mem a).usedPayload
          (some np, free s2 (some p))

/-!
Concrete executions.  The allocator starts empty with an aligned sbrk
frontier at 64 and room to grow to 4096 (so every growth below succeeds);
all states below are reached purely through the public operations.
-/

/-- The initial allocator state: empty heap, empty free-list table. -/
def st0 : AllocState :=
  { mem := [], heads := [], lastRegion := none, brk := 64, brkLimit := 4096,
    data := [] }

/-- `malloc(16)` on the empty allocator: a fresh region at 64
(totalSize 32, capacity 16), payload pointer 80. -/
def alloc16 : Option Nat × AllocState := malloc st0 16

/-- `free` of that pointer: the capacity-16 region goes into the
free-list table. -/
def freed16 : AllocState := free alloc16.2 alloc16.1

/-- `malloc(20)` next: the free-list search reuses the capacity-16
region (both sides are indexed by the power-of-two lower bound). -/
def alloc20 : Option Nat × AllocState := malloc freed16 20

/-- `malloc(100)` on the empty allocator: region at 64, totalSize 128,
capacity 112, payload pointer 80. -/
def alloc100 : Option Nat × AllocState := malloc st0 100

/-- `realloc` of that pointer down to 10 bytes: the shrink path runs
`possiblySplitRemainder(region, 10)`, which carves a region at 96. -/
def shrink10 : Option Nat × AllocState := realloc alloc100.2 alloc100.1 10

/-- Three consecutive `malloc(10)` calls: physically adjacent regions at
64, 96 and 128 (payload pointers 80, 112, 144), linked as neighbors. -/
def mA : Option Nat × AllocState := malloc st0 10

/-- Second of the three allocations. -/
def mB : Option Nat × AllocState := malloc mA.2 10

/-- Third of the three allocations. -/
def mC : Option Nat × AllocState := malloc mB.2 10

/-- `free` of the middle allocation (payload 112, region 96): neither
neighbor is free, so the region is just filed in the table. -/
def relMiddle : AllocState := free mC.2 (some 112)

/-- `free` of the first allocation (payload 80, region 64): its free
right neighbor 96 is absorbed (`totalSize` 64, `next` now 128) — but the
region at 128 keeps `prev = 96`, the absorbed region. -/
def relFirst : AllocState := free relMiddle (some 80)

/-- `free` of the last allocation (payload 144, region 128): its stale
`prev` pointer leads the coalescer to the absorbed header at 96 instead
of the live free region at 64. -/
def relLast : AllocState := free relFirst (some 144)

/-- One `malloc(10)` from the empty allocator, for the release path. -/
def oneAlloc : Option Nat × AllocState := malloc st0 10

/-- The state `free(80)` builds just before coalescing: the region at 64
with `usedPayload` zeroed.  Since the merge finds no free neighbor,
`free` passes exactly this state and region to `addToFreeList`. -/
def markedFree : AllocState :=
  { oneAlloc.2 with
    mem := updateR oneAlloc.2.mem 64 (fun r => { r with usedPayload := 0 }) }

/-- An allocator whose sbrk limit is exactly exhausted by one
`malloc(10)`: the next growth request must fail. -/
def tightHeap : AllocState :=
  { mem := [], heads := [], lastRegion := none, brk := 64, brkLimit := 96,
    data := [] }

/-- The exhausted-heap state holding one live 10-byte allocation at
region 64 (payload 80). -/
def fullHeap : AllocState := (malloc tightHeap 10).2

/-!
Helper lemmas (shared; not tied to a single claim).
-/

/-- `finishNewAllocation` always reports success with the fresh region. -/
theorem finishNewAllocationFst (s : AllocState) (a b n : Nat) :
    (finishNewAllocation s a b n).1 = some a := rfl

/-- A failing `newAllocation` leaves the headers, the free-list table,
the payload bytes and `lastRegion` untouched (only the frontier may have
moved, on the partial alignment-fixup path). -/
theorem newAllocationFailFrame (s s2 : AllocState) (n : Nat)
    (h : newAllocation s n = (none, s2)) :
    s2.mem = s.mem ∧ s2.heads = s.heads ∧ s2.data = s.data ∧
    s2.lastRegion = s.lastRegion := by
  dsimp only [newAllocation] at h
  split at h
  · injection h with h1 h2; subst h2; exact ⟨rfl, rfl, rfl, rfl⟩
  · split at h
    · have hf := congrArg Prod.fst h
      rw [finishNewAllocationFst] at hf
      simp at hf
    · split at h
      · injection h with h1 h2; subst h2; exact ⟨rfl, rfl, rfl, rfl⟩
      · have hf := congrArg Prod.fst h
        rw [finishNewAllocationFst] at hf
        simp at hf

/-- A failing `malloc` leaves the headers, the free-list table, the
payload bytes and `lastRegion` untouched: the free-list search mutates
nothing on a miss, and a hit or a successful growth never returns null. -/
theorem mallocFailFrame (s s1 : AllocState) (n : Nat)
    (h : malloc s n = (none, s1)) :
    s1.mem = s.mem ∧ s1.heads = s.heads ∧ s1.data = s.data ∧
    s1.lastRegion = s.lastRegion := by
  dsimp only [malloc] at h
  by_cases hn : n = 0
  · rw [if_pos hn] at h
    injection h with h1 h2; subst h2; exact ⟨rfl, rfl, rfl, rfl⟩
  · rw [if_neg hn] at h
    rcases htf : tryFromFreeList s n with _ | ⟨f, t⟩
    · rw [htf] at h
      rcases hna : newAllocation s n with ⟨o, t2⟩
      rw [hna] at h
      cases o
      · injection h with h1 h2; subst h2
        exact newAllocationFailFrame s t2 n hna
      · injection h with h1 h2; exact absurd h1 (by simp)
    · rw [htf] at h; injection h with h1 h2; exact absurd h1 (by simp)

/-- Heap growth is attempted and fails: the free-list search missed, and
the growth request of `newAllocation` failed. -/
def heapGrowthFails (s : AllocState) (size : Nat) : Prop :=
  tryFromFreeList s size = none ∧ (newAllocation s size).1 = none

/-!
The claims.
-/

/-- Claim C1.  The claim fails on the code: after `malloc(16)`,
`free`, the call `malloc(20)` succeeds (pointer 80) but the region it
returns has a committed capacity of only 16 < 20 bytes — the free-list
search draws from the class keyed by the request's power-of-two lower
bound, whose members are not all large enough (the region is even left
with `usedPayload = 20` against a 16-byte capacity). -/
theorem mallocFreeListHitCapacityBelowRequest :
    alloc20.1 = some 80 ∧
    getMaximumPayloadSize (lookupR alloc20.2.mem 64) = 16 ∧
    getMaximumPayloadSize (lookupR alloc20.2.mem 64) < 20 ∧
    (lookupR alloc20.2.mem 64).usedPayload = 20 := by decide

/-- Claim C2.  The claim fails on the code: `getFreeListIndex` returns
`lowerBoundByPowerOf2(size)` — the power of two itself, not its exponent
`K`.  For capacity 16 it returns 16 where the exponent is 4, and for any
capacity `≥ 32` the returned value violates the function's own
`assert(MIN_FREELIST_INDEX <= ret && ret < MAX_FREELIST_INDEX)`. -/
theorem getFreeListIndexNotExponent :
    getFreeListIndex 16 = 16 ∧ getFreeListIndex 16 ≠ 4 ∧
    getFreeListIndex 32 = 32 ∧
    getFreeListIndexAssertOk 32 = false ∧
    getFreeListIndexAssertOk 16 = true := by decide

/-- Claim C3.  In the source, `useFreeInfo` takes only the `FreeInfo*`
and its call `useRegion(region, size)` reads a `size` that is declared
nowhere in scope, so the requested size is not threaded into the
mark-used step (the file does not even compile as written).  This
theorem documents the embedding: only because the model gives
`useFreeInfo` the explicit `size` parameter the spec demands does the
free-list hit of `malloc(20)` mark the reused region used for exactly
20 bytes. -/
theorem useFreeInfoThreadsSizeOnlyInModel :
    (lookupR (useFreeInfo freed16 64 20).2.mem 64).usedPayload = 20 ∧
    (useFreeInfo freed16 64 20).1 = 64 := by decide

/-- Claim C4.  The claim fails on the code: `calloc(nmemb, size)` calls
`malloc(size)` and `memset(ptr, 0, size)`, ignoring `nmemb`.
`calloc(4, 4)` commits 4 bytes, not 16, and zero-fills exactly the four
bytes 80..83; `calloc(8, 4)` likewise commits 4 bytes, not 32. -/
theorem callocAllocatesAndZeroesOnlyElementSize :
    (calloc st0 4 4).1 = some 80 ∧
    (lookupR (calloc st0 4 4).2.mem 64).usedPayload = 4 ∧
    (calloc st0 4 4).2.data = [(80, 0), (81, 0), (82, 0), (83, 0)] ∧
    (lookupR (calloc st0 8 4).2.mem 64).usedPayload = 4 := by decide

/-- Claim C5.  The claim fails on the code: shrinking a 112-capacity
region to 10 bytes (`malloc(100)` then `realloc(p, 10)`) fires the split,
and the carved-off region at 96 is initialized by
`initRegion(split, totalSplitSize, size)` with `usedPayload = 10` (not a
free region) and `totalSize = 32` — the distance from the original
region's start, not the remainder — while the original region keeps
`totalSize = 128`, so the two extents do not partition the original one
(they overlap and 64 + 128 ≠ 96 + 32); the mis-described region is
nevertheless filed in the free-list table. -/
theorem splitRegionLeftUsedAndNotPartitioning :
    shrink10.1 = some 80 ∧
    (lookupR shrink10.2.mem 96).usedPayload = 10 ∧
    (lookupR shrink10.2.mem 96).usedPayload ≠ 0 ∧
    (lookupR shrink10.2.mem 96).totalSize = 32 ∧
    (lookupR shrink10.2.mem 64).totalSize = 128 ∧
    getHead shrink10.2 16 = some 96 ∧
    add32 64 (lookupR shrink10.2.mem 64).totalSize ≠
      add32 96 (lookupR shrink10.2.mem 96).totalSize := by decide

/-- Claim C6.  The claim fails on the code: after `malloc(10)` three
times (regions 64, 96, 128) and releases in the order middle, first,
last, the final release completes with the region at 64 free with
`totalSize = 64` and the region at 128 (still the allocator's
`lastRegion`) free as well — two physically adjacent free regions
(64 + 64 = 128) persist, because the earlier coalesce left the region at
128 with `prev = 96` (the absorbed header), so the final merge ran
against a ghost instead of the live free region at 64. -/
theorem adjacentFreeRegionsPersistAfterRelease :
    (lookupR relLast.mem 64).usedPayload = 0 ∧
    (lookupR relLast.mem 128).usedPayload = 0 ∧
    add32 64 (lookupR relLast.mem 64).totalSize = 128 ∧
    relLast.lastRegion = some 128 := by decide

/-- Claim C7.  The claim fails on the code: on the very first release of
a single allocation (`malloc(10)`; `free(p)`), no merge happens and
`free` calls `addToFreeList` on exactly the state and region below,
where `usedPayload = 0` — so `addToFreeList`'s own
`assert(region->usedPayload)` is false while `getFreeInfo`'s
`assert(!region->usedPayload)` is true; the two conditions contradict
each other on every call, so they can never both pass. -/
theorem freeListInsertAssertsCannotBothHold :
    free oneAlloc.2 oneAlloc.1 = addToFreeList markedFree 64 ∧
    (mergeIntoExistingFreeRegion markedFree 64).1 = false ∧
    usedPayloadNonzeroAssert markedFree 64 = false ∧
    getFreeInfoAssert markedFree 64 = true := by decide

/-- Claim C8.  The claim fails on the code: after three `malloc(10)`
calls and releases of the middle then the first allocation, the region
at 64 has `next = 128` but the region at 128 still has `prev = 96` (the
absorbed region) — `mergeIntoExistingFreeRegion` reassigns the
survivor's `next` without updating the new right neighbor's `prev`. -/
theorem neighborLinksInconsistentAfterCoalesce :
    (lookupR relFirst.mem 64).next = some 128 ∧
    (lookupR relFirst.mem 128).prev = some 96 ∧
    (lookupR relFirst.mem 128).prev ≠ some 64 := by decide

/-- Claim C9.  On realloc's fallback path (nonzero new size that is
neither the current size, nor within capacity, nor coverable by
absorbing a free right neighbor), a failing fresh allocation makes
realloc return null with the region headers, the free-list table, the
payload bytes and `lastRegion` exactly as before the call — in
particular the original Region's header fields and payload contents are
untouched. -/
theorem reallocSlowPathStrongGuarantee (s s1 : AllocState) (p size : Nat)
    (h0 : size ≠ 0)
    (h1 : size ≠ (lookupR s.mem (sub32 p METADATA_SIZE)).usedPayload)
    (h2 : ¬ size < (lookupR s.mem (sub32 p METADATA_SIZE)).usedPayload)
    (h3 : ¬ size ≤ getMaximumPayloadSize (lookupR s.mem (sub32 p METADATA_SIZE)))
    (h4 : growIntoNext s (sub32 p METADATA_SIZE) size = false)
    (hm : malloc s size = (none, s1)) :
    realloc s (some p) size = (none, s1) ∧
    s1.mem = s.mem ∧ s1.heads = s.heads ∧ s1.data = s.data ∧
    s1.lastRegion = s.lastRegion := by
  refine ⟨?_, mallocFailFrame s s1 size hm⟩
  dsimp only [realloc]
  rw [if_neg h0, if_neg h1, if_neg h2, if_neg h3, if_neg (by simp [h4]), hm]

/-- Claim C9, witness: growing the live 10-byte allocation of the
exhausted heap to 100 bytes takes the fallback path, the growth request
fails, and realloc returns null with the state untouched. -/
theorem reallocSlowPathStrongGuaranteeWitness :
    (100 : Nat) ≠ 0 ∧
    (realloc fullHeap (some 80) 100 = (none, fullHeap) ∧
     fullHeap.mem = fullHeap.mem ∧ fullHeap.heads = fullHeap.heads ∧
     fullHeap.data = fullHeap.data ∧
     fullHeap.lastRegion = fullHeap.lastRegion) :=
  ⟨by decide,
   reallocSlowPathStrongGuarantee fullHeap fullHeap 80 100 (by decide)
     (by decide) (by decide) (by decide) (by decide) (by decide)⟩

/-- Claim C10.  `malloc` returns null exactly when the size is zero or
when heap growth is attempted (free-list miss) and fails; and
`malloc(0)` returns null with the state returned verbatim — no growth
request, no free-list or frontier change. -/
theorem mallocNullIffZeroOrGrowthFailure (s : AllocState) (size : Nat) :
    ((malloc s size).1 = none ↔ size = 0 ∨ heapGrowthFails s size) ∧
    malloc s 0 = (none, s) := by
  constructor
  · by_cases hn : size = 0
    · simp [malloc, hn]
    · rcases htf : tryFromFreeList s size with _ | ⟨f, t⟩
      · rcases hna : newAllocation s size with ⟨o, s2⟩
        cases o
        · simp [malloc, hn, htf, hna, heapGrowthFails]
        · simp [malloc, hn, htf, hna, heapGrowthFails]
      · simp [malloc, hn, htf, heapGrowthFails]
  · simp [malloc]
